import Mathlib

/-!
Verification of the kaggle research-assistant agent against its
natural-language specification.  The Python modules `memory.py`,
`tools.py`, `orchestrator.py`, `evaluator.py` and `llm_client.py` are
shallowly embedded as executable Lean definitions; machine floats of the
evaluator are modelled by rationals, `datetime` values by their ISO-8601
rendering (the two are in bijection via `isoformat`/`fromisoformat`), and
wall-clock timestamps are threaded as explicit arguments.
-/

/-- Lower-case a character exactly as Python `str.lower` does on the ASCII
strings this code base works with. -/
def lowerChar (c : Char) : Char := c.toLower

/-- Lower-case a string character by character (Python `s.lower()`). -/
def lowerStr (s : String) : String := String.mk (s.data.map lowerChar)

/-- Does the character list `hay` start with `needle`? -/
def startsWithList : List Char → List Char → Bool
  | [], _ => true
  | _ :: _, [] => false
  | a :: as, b :: bs => a == b && startsWithList as bs

/-- Does `needle` occur as a contiguous sub-list of the second argument? -/
def hasSubList (needle : List Char) : List Char → Bool
  | [] => needle.isEmpty
  | c :: rest => startsWithList needle (c :: rest) || hasSubList needle rest

/-- Python's substring test `needle in hay`. -/
def pyIn (needle hay : String) : Bool := hasSubList needle.data hay.data

/-- Python's `any(word in s for word in words)`. -/
def anyIn (words : List String) (s : String) : Bool := words.any (fun w => pyIn w s)

/-- Python's `sep.join(parts)`. -/
def pyJoin (sep : String) : List String → String
  | [] => ""
  | [s] => s
  | s :: rest => s ++ sep ++ pyJoin sep rest

/-- Python truthiness of an `Optional[str]`: `None` and `""` are falsy. -/
def truthyOptStr : Option String → Bool
  | none => false
  | some s => !s.isEmpty

/-! ## memory.py -/

/-- `Message` (memory.py): one conversation turn.  The creation `datetime`
is carried as its ISO-8601 rendering. -/
structure Message where
  role : String
  content : String
  timestamp : String
deriving Repr, DecidableEq

/-- `Message.to_dict` target shape: the JSON object written for a message;
`timestamp.isoformat()` is the identity under the ISO representation. -/
structure MessageDict where
  role : String
  content : String
  timestamp : String
deriving Repr, DecidableEq

/-- `Message.to_dict` (memory.py). -/
def Message.to_dict (m : Message) : MessageDict :=
  { role := m.role, content := m.content, timestamp := m.timestamp }

/-- `Message.from_dict` (memory.py); `datetime.fromisoformat` is the
identity under the ISO representation of datetimes. -/
def Message.from_dict (d : MessageDict) : Message :=
  { role := d.role, content := d.content, timestamp := d.timestamp }

/-- `ConversationMemory` (memory.py): message list, maximum length and
free-form metadata (a JSON object, modelled as an association list). -/
structure ConversationMemory where
  messages : List Message
  max_messages : Nat
  metadata : List (String × String)
deriving Repr, DecidableEq

/-- `ConversationMemory.__init__` (default `max_messages = 50`). -/
def mkConversationMemory (max : Nat := 50) : ConversationMemory :=
  { messages := [], max_messages := max, metadata := [] }

/-- Python slice `l[-k:]`.  For `k = 0` the slice `l[-0:]` is `l[0:]`,
i.e. the whole list; for `k ≥ 1` it keeps the last `k` elements. -/
def sliceLastPy (k : Nat) (l : List Message) : List Message :=
  if k = 0 then l else l.drop (l.length - k)

/-- `ConversationMemory.add_message` (memory.py): append a freshly stamped
message, then `self.messages = self.messages[-self.max_messages:]` when the
length exceeds `max_messages`.  The creation time is passed explicitly. -/
def ConversationMemory.add_message (mem : ConversationMemory)
    (role content ts : String) : ConversationMemory :=
  let msgs := mem.messages ++ [⟨role, content, ts⟩]
  if msgs.length > mem.max_messages then
    { mem with messages := sliceLastPy mem.max_messages msgs }
  else
    { mem with messages := msgs }

/-- A sequence of `add_message` calls, oldest first. -/
def ConversationMemory.addAll (mem : ConversationMemory)
    (adds : List (String × String × String)) : ConversationMemory :=
  adds.foldl (fun m x => m.add_message x.1 x.2.1 x.2.2) mem

/-- The `message_count` field of `ConversationMemory.get_summary_stats`
(memory.py): `0` for the empty history, otherwise `len(self.messages)`. -/
def ConversationMemory.message_count (mem : ConversationMemory) : Nat :=
  if mem.messages.isEmpty then 0 else mem.messages.length

/-- The JSON document written by `ConversationMemory.save` (memory.py). -/
structure ConversationFile where
  messages : List MessageDict
  metadata : List (String × String)
deriving Repr, DecidableEq

/-- `ConversationMemory.save` (memory.py): the serialized document. -/
def ConversationMemory.save (mem : ConversationMemory) : ConversationFile :=
  { messages := mem.messages.map Message.to_dict, metadata := mem.metadata }

/-- `ConversationMemory.load` (memory.py): replace messages and metadata
from the document (`save` always writes a `metadata` key, so the
`data.get("metadata", ...)` default does not fire on saved files). -/
def ConversationMemory.load (mem : ConversationMemory)
    (data : ConversationFile) : ConversationMemory :=
  { mem with messages := data.messages.map Message.from_dict,
             metadata := data.metadata }

/-- The last `k` elements of a list (`l[-k:]` for `k ≥ 1`). -/
def lastN (k : Nat) (l : List Message) : List Message :=
  l.drop (l.length - k)

/-! ## ResearchMemory (memory.py) -/

/-- A finding record stored by `ResearchMemory.add_finding`. -/
structure FindingRec where
  content : String
  source : Option String
  topic : Option String
  timestamp : String
deriving Repr, DecidableEq

/-- `ResearchMemory` (memory.py). -/
structure ResearchMemory where
  findings : List FindingRec
  sources : List String
  topics : List String
deriving Repr, DecidableEq

/-- `ResearchMemory.__init__`. -/
def mkResearchMemory : ResearchMemory := { findings := [], sources := [], topics := [] }

/-- `ResearchMemory.add_finding` (memory.py): always append the finding;
append `source` (resp. `topic`) to its sequence only when it is truthy and
not already present (`if source and source not in self.sources`). -/
def ResearchMemory.add_finding (mem : ResearchMemory) (finding : String)
    (source topic : Option String) (ts : String) : ResearchMemory :=
  let mem1 := { mem with
    findings := mem.findings ++ [⟨finding, source, topic, ts⟩] }
  let mem2 :=
    match source with
    | some s => if !s.isEmpty && s ∉ mem1.sources then
        { mem1 with sources := mem1.sources ++ [s] } else mem1
    | none => mem1
  match topic with
  | some t => if !t.isEmpty && t ∉ mem2.topics then
      { mem2 with topics := mem2.topics ++ [t] } else mem2
  | none => mem2

/-- Arguments of one `add_finding` call. -/
structure AddFinding where
  finding : String
  source : Option String
  topic : Option String
  timestamp : String
deriving Repr, DecidableEq

/-- A sequence of `add_finding` calls, in order. -/
def ResearchMemory.addFindings (mem : ResearchMemory) (adds : List AddFinding) :
    ResearchMemory :=
  adds.foldl (fun m a => m.add_finding a.finding a.source a.topic a.timestamp) mem

/-- First-appearance deduplication: append each element the first time it
is seen.  This is the spec-side description of how the `sources` and
`topics` sequences grow. -/
def dedupStep (acc : List String) (s : String) : List String :=
  if s ∈ acc then acc else acc ++ [s]

/-- The deduplicated first-appearance sequence of a list. -/
def firstOcc (l : List String) : List String := l.foldl dedupStep []

/-- The truthy values of an optional-string projection, in call order. -/
def truthyVals (l : List (Option String)) : List String :=
  l.filterMap (fun o =>
    match o with
    | some s => if s.isEmpty then none else some s
    | none => none)

/-! ## Lemmas about conversation truncation -/

/-- Converting an `add_message` argument triple into the stored message. -/
def mkMsg (x : String × String × String) : Message := ⟨x.1, x.2.1, x.2.2⟩

lemma lastN_append_of_le (k : Nat) (a s : List Message) (h : k ≤ s.length) :
    lastN k (a ++ s) = lastN k s := by
  induction a with
  | nil => rfl
  | cons x a ih =>
    have h2 : k ≤ (a ++ s).length := by rw [List.length_append]; omega
    have hlen : (x :: (a ++ s)).length - k = ((a ++ s).length - k) + 1 := by
      rw [List.length_cons]; omega
    calc lastN k (x :: a ++ s)
        = (x :: (a ++ s)).drop ((x :: (a ++ s)).length - k) := rfl
      _ = (a ++ s).drop ((a ++ s).length - k) := by
            rw [hlen, List.drop_succ_cons]
      _ = lastN k s := ih

lemma lastN_idem_append (k : Nat) (l r : List Message) :
    lastN k (lastN k l ++ r) = lastN k (l ++ r) := by
  by_cases hk : l.length ≤ k
  · have hfix : lastN k l = l := by
      unfold lastN; rw [Nat.sub_eq_zero_of_le hk, List.drop_zero]
    rw [hfix]
  · have hlen : (lastN k l).length = k := by
      unfold lastN; rw [List.length_drop]; omega
    have hle : k ≤ (lastN k l ++ r).length := by
      rw [List.length_append, hlen]; omega
    conv_rhs => rw [show l = l.take (l.length - k) ++ lastN k l from
                      (List.take_append_drop _ _).symm,
                    List.append_assoc]
    rw [lastN_append_of_le _ _ _ hle]

lemma length_lastN_le (k : Nat) (l : List Message) : (lastN k l).length ≤ k := by
  unfold lastN; rw [List.length_drop]; omega

lemma add_message_max (mem : ConversationMemory) (r c t : String) :
    (mem.add_message r c t).max_messages = mem.max_messages := by
  simp only [ConversationMemory.add_message]
  split <;> rfl

lemma add_message_messages (mem : ConversationMemory) (r c t : String)
    (h1 : 1 ≤ mem.max_messages) (_h2 : mem.messages.length ≤ mem.max_messages) :
    (mem.add_message r c t).messages
      = lastN mem.max_messages (mem.messages ++ [⟨r, c, t⟩]) := by
  have hne : mem.max_messages ≠ 0 := by omega
  have hlen : (mem.messages ++ [(⟨r, c, t⟩ : Message)]).length
      = mem.messages.length + 1 := by simp
  simp only [ConversationMemory.add_message]
  split
  · show sliceLastPy _ _ = _
    unfold sliceLastPy lastN
    rw [if_neg hne]
  · next h =>
    show mem.messages ++ [⟨r, c, t⟩]
        = lastN mem.max_messages (mem.messages ++ [⟨r, c, t⟩])
    unfold lastN
    rw [hlen] at h
    have hz : (mem.messages ++ [(⟨r, c, t⟩ : Message)]).length - mem.max_messages = 0 := by
      rw [hlen]; omega
    rw [hz, List.drop_zero]

lemma addAll_messages (adds : List (String × String × String)) :
    ∀ mem : ConversationMemory, 1 ≤ mem.max_messages →
      mem.messages.length ≤ mem.max_messages →
      (mem.addAll adds).messages
          = lastN mem.max_messages (mem.messages ++ adds.map mkMsg)
        ∧ (mem.addAll adds).max_messages = mem.max_messages := by
  induction adds with
  | nil =>
    intro mem h1 h2
    refine ⟨?_, rfl⟩
    show mem.messages = lastN mem.max_messages (mem.messages ++ [])
    rw [List.append_nil]
    unfold lastN
    rw [Nat.sub_eq_zero_of_le h2, List.drop_zero]
  | cons x xs ih =>
    intro mem h1 h2
    have hstep : (mem.add_message x.1 x.2.1 x.2.2).messages
        = lastN mem.max_messages (mem.messages ++ [mkMsg x]) :=
      add_message_messages mem _ _ _ h1 h2
    have hmax := add_message_max mem x.1 x.2.1 x.2.2
    have h1' : 1 ≤ (mem.add_message x.1 x.2.1 x.2.2).max_messages := by
      rw [hmax]; exact h1
    have h2' : (mem.add_message x.1 x.2.1 x.2.2).messages.length
        ≤ (mem.add_message x.1 x.2.1 x.2.2).max_messages := by
      rw [hstep, hmax]; exact length_lastN_le _ _
    obtain ⟨ha, hb⟩ := ih (mem.add_message x.1 x.2.1 x.2.2) h1' h2'
    have hun : mem.addAll (x :: xs)
        = (mem.add_message x.1 x.2.1 x.2.2).addAll xs := rfl
    refine ⟨?_, ?_⟩
    · rw [hun, ha, hmax, hstep, lastN_idem_append, List.append_assoc]
      rfl
    · rw [hun, hb, hmax]

/-- Claim C1 (amended: the bound requires `max_messages ≥ 1`; with
`max_messages = 0` the Python slice `messages[-0:]` keeps the whole list,
see the counterexample).  For every ConversationMemory with
`max_messages ≥ 1`, after any sequence of `add_message` calls the stored
list is exactly the most recent messages in original relative order and
never exceeds `max_messages`; with `max_messages = 3`, adding 5 messages
leaves exactly the last 3 in order and `message_count = 3`. -/
theorem c1_conversation_truncation :
    (∀ max : Nat, 1 ≤ max → ∀ adds : List (String × String × String),
        ((mkConversationMemory max).addAll adds).messages
            = lastN max (adds.map mkMsg)
      ∧ ((mkConversationMemory max).addAll adds).messages.length ≤ max)
    ∧ ((mkConversationMemory 3).addAll
        [("user", "m1", "t1"), ("user", "m2", "t2"), ("user", "m3", "t3"),
         ("user", "m4", "t4"), ("user", "m5", "t5")]).messages
        = [⟨"user", "m3", "t3"⟩, ⟨"user", "m4", "t4"⟩, ⟨"user", "m5", "t5"⟩]
    ∧ ((mkConversationMemory 3).addAll
        [("user", "m1", "t1"), ("user", "m2", "t2"), ("user", "m3", "t3"),
         ("user", "m4", "t4"), ("user", "m5", "t5")]).message_count = 3 := by
  refine ⟨?_, by decide, by decide⟩
  intro max h1 adds
  obtain ⟨ha, -⟩ := addAll_messages adds (mkConversationMemory max) h1 (by simp [mkConversationMemory])
  refine ⟨?_, ?_⟩
  · rw [ha]; rfl
  · rw [ha]
    show (lastN max ([] ++ adds.map mkMsg)).length ≤ max
    exact length_lastN_le _ _

/-- Claim C1 witness: the amended theorem applied at `max_messages = 2`
and a single added message. -/
theorem c1_conversation_truncation_witness :
    1 ≤ 2
    ∧ ((mkConversationMemory 2).addAll [("user", "a", "t")]).messages
        = lastN 2 ([("user", "a", "t")].map mkMsg) :=
  ⟨by decide, ((c1_conversation_truncation.1 2 (by decide)) [("user", "a", "t")]).1⟩

/-- Claim C1 counterexample: with `max_messages = 0` the stored list
exceeds `max_messages` after a single `add_message`, because the trim
`messages[-0:]` is a whole-list slice in Python. -/
theorem c1_counterexample :
    ((mkConversationMemory 0).addAll [("user", "hello", "t0")]).messages.length = 1
    ∧ (mkConversationMemory 0).max_messages = 0
    ∧ ¬((mkConversationMemory 0).addAll
          [("user", "hello", "t0")]).messages.length
        ≤ (mkConversationMemory 0).max_messages := by decide

/-! ## Lemmas about research-memory deduplication -/

lemma truthyVals_append (l1 l2 : List (Option String)) :
    truthyVals (l1 ++ l2) = truthyVals l1 ++ truthyVals l2 := by
  unfold truthyVals
  rw [List.filterMap_append]

lemma add_finding_fields (mem : ResearchMemory) (f : String)
    (so tp : Option String) (ts : String) :
    (mem.add_finding f so tp ts).findings = mem.findings ++ [⟨f, so, tp, ts⟩]
    ∧ (mem.add_finding f so tp ts).sources
        = (truthyVals [so]).foldl dedupStep mem.sources
    ∧ (mem.add_finding f so tp ts).topics
        = (truthyVals [tp]).foldl dedupStep mem.topics := by
  unfold ResearchMemory.add_finding truthyVals dedupStep
  cases so <;> cases tp <;>
    simp only [List.filterMap, List.foldl] <;>
    (try split_ifs) <;>
    simp_all [List.foldl]

lemma truthyVals_cons (o : Option String) (l : List (Option String)) :
    truthyVals (o :: l) = truthyVals [o] ++ truthyVals l := by
  rw [show o :: l = [o] ++ l from rfl, truthyVals_append]

lemma addFindings_fields (adds : List AddFinding) :
    ∀ mem : ResearchMemory,
      (mem.addFindings adds).findings.length = mem.findings.length + adds.length
      ∧ (mem.addFindings adds).sources
          = (truthyVals (adds.map AddFinding.source)).foldl dedupStep mem.sources
      ∧ (mem.addFindings adds).topics
          = (truthyVals (adds.map AddFinding.topic)).foldl dedupStep mem.topics := by
  induction adds with
  | nil => intro mem; exact ⟨by simp [ResearchMemory.addFindings], rfl, rfl⟩
  | cons a as ih =>
    intro mem
    have hstep := add_finding_fields mem a.finding a.source a.topic a.timestamp
    have hrec := ih (mem.add_finding a.finding a.source a.topic a.timestamp)
    have hun : mem.addFindings (a :: as)
        = (mem.add_finding a.finding a.source a.topic a.timestamp).addFindings as := rfl
    refine ⟨?_, ?_, ?_⟩
    · rw [hun, hrec.1, hstep.1, List.length_append]
      simp
      omega
    · rw [hun, hrec.2.1, hstep.2.1, List.map_cons]
      conv_rhs => rw [truthyVals_cons, List.foldl_append]
    · rw [hun, hrec.2.2, hstep.2.2, List.map_cons]
      conv_rhs => rw [truthyVals_cons, List.foldl_append]

lemma dedupFold_nodup (l : List String) :
    ∀ acc : List String, acc.Nodup → (l.foldl dedupStep acc).Nodup := by
  induction l with
  | nil => intro acc h; exact h
  | cons s rest ih =>
    intro acc h
    show (rest.foldl dedupStep (dedupStep acc s)).Nodup
    apply ih
    unfold dedupStep
    split
    · exact h
    · next hmem => simp [List.nodup_append, h, hmem]

/-- Claim C6 (amended: only truthy labels are deduplicated — a `None` or
empty-string source/topic is never appended, see the counterexample).
Every `add_finding` call appends one finding, and each distinct non-empty
source (and topic) value is appended to its sequence exactly once, at the
position of its first appearance; adding findings with sources
`["A", "B", "A"]` yields `sources = ["A", "B"]` and 3 findings. -/
theorem c6_research_memory_dedup :
    (∀ adds : List AddFinding,
        (mkResearchMemory.addFindings adds).findings.length = adds.length
      ∧ (mkResearchMemory.addFindings adds).sources
          = firstOcc (truthyVals (adds.map AddFinding.source))
      ∧ (mkResearchMemory.addFindings adds).topics
          = firstOcc (truthyVals (adds.map AddFinding.topic))
      ∧ (mkResearchMemory.addFindings adds).sources.Nodup
      ∧ (mkResearchMemory.addFindings adds).topics.Nodup)
    ∧ (mkResearchMemory.addFindings
        [⟨"f1", some "A", none, "t1"⟩, ⟨"f2", some "B", none, "t2"⟩,
         ⟨"f3", some "A", none, "t3"⟩]).sources = ["A", "B"]
    ∧ (mkResearchMemory.addFindings
        [⟨"f1", some "A", none, "t1"⟩, ⟨"f2", some "B", none, "t2"⟩,
         ⟨"f3", some "A", none, "t3"⟩]).findings.length = 3 := by
  refine ⟨?_, by decide, by decide⟩
  intro adds
  obtain ⟨h1, h2, h3⟩ := addFindings_fields adds mkResearchMemory
  refine ⟨by rw [h1]; simp [mkResearchMemory], h2, h3, ?_, ?_⟩
  · rw [h2]; exact dedupFold_nodup _ _ List.nodup_nil
  · rw [h3]; exact dedupFold_nodup _ _ List.nodup_nil

/-- Claim C6 counterexample: an empty-string source is a distinct source
value observed in a finding, yet it is never appended to `sources`
(Python's `if source and ...` treats `""` as absent): the claim's
prediction `sources = [""]` fails. -/
theorem c6_counterexample :
    (mkResearchMemory.add_finding "f" (some "") none "t").findings
        = [⟨"f", some "", none, "t"⟩]
    ∧ (mkResearchMemory.add_finding "f" (some "") none "t").sources = []
    ∧ (mkResearchMemory.add_finding "f" (some "") none "t").sources ≠ [""] := by
  decide

/-- Claim C9: serializing a ConversationMemory via `save` (each message
through `Message.to_dict`) and loading the document into any fresh
instance via `load` / `Message.from_dict` reproduces the identical
sequence of role/content/timestamp values and identical metadata. -/
theorem c9_save_load_roundtrip (mem fresh : ConversationMemory) :
    (fresh.load mem.save).messages = mem.messages
    ∧ (fresh.load mem.save).metadata = mem.metadata := by
  constructor
  · show mem.save.messages.map Message.from_dict = mem.messages
    unfold ConversationMemory.save
    rw [List.map_map]
    have hid : Message.from_dict ∘ Message.to_dict = id := by
      funext m; rfl
    rw [hid, List.map_id]
  · rfl

/-! ## evaluator.py

Machine floats are modelled by rationals; every numeric literal the
evaluator compares against is exactly representable, so the branch
structure is unchanged. -/

/-- Python's `round(q)` on an exact value: round half to even. -/
def pyRoundInt (q : ℚ) : ℤ :=
  let f := ⌊q⌋
  let r := q - f
  if r < 1/2 then f
  else if 1/2 < r then f + 1
  else if f % 2 = 0 then f else f + 1

/-- Python's `round(q, ndigits)`. -/
def pyRoundTo (ndigits : Nat) (q : ℚ) : ℚ :=
  (pyRoundInt (q * (10 : ℚ) ^ ndigits) : ℚ) / (10 : ℚ) ^ ndigits

/-- `AgentEvaluator._evaluate_speed` (evaluator.py). -/
def evaluate_speed (response_time : ℚ) : ℚ :=
  if response_time < 2 then 100
  else if response_time < 5 then 80
  else if response_time < 10 then 60
  else 40

/-- `AgentEvaluator._evaluate_completeness` (evaluator.py): thresholds on
the character length of the response. -/
def evaluate_completeness (response : String) : ℚ :=
  let length := response.length
  if length < 50 then 30
  else if length < 200 then 60
  else if length < 500 then 85
  else 95

/-- `AgentEvaluator._evaluate_tool_usage` (evaluator.py): thresholds on
the number of tool invocations (duplicates included). -/
def evaluate_tool_usage (tools_used : List String) : ℚ :=
  let count := tools_used.length
  if count = 0 then 40
  else if count = 1 then 70
  else if 2 ≤ count ∧ count ≤ 3 then 100
  else if count = 4 then 75
  else 50

/-- One evaluation record built by `AgentEvaluator.evaluate_response`
(evaluator.py); the `metrics` map is flattened into its three entries in
insertion order (speed, completeness, tool usage). -/
structure Evaluation where
  query : String
  response_length : Nat
  response_time : ℚ
  tools_used : List String
  tools_count : Nat
  response_speed : ℚ
  response_completeness : ℚ
  tool_usage_efficiency : ℚ
  overall_score : ℚ
deriving Repr, DecidableEq

/-- `AgentEvaluator.evaluate_response` (evaluator.py): the three
sub-scores and `overall_score = round(sum(scores)/len(scores), 2)` with
exactly three scores. -/
def evaluate_response (query response : String) (response_time : ℚ)
    (tools_used : List String) : Evaluation :=
  let speed := evaluate_speed response_time
  let comp := evaluate_completeness response
  let usage := evaluate_tool_usage tools_used
  { query := query,
    response_length := response.length,
    response_time := pyRoundTo 3 response_time,
    tools_used := tools_used,
    tools_count := tools_used.length,
    response_speed := speed,
    response_completeness := comp,
    tool_usage_efficiency := usage,
    overall_score := pyRoundTo 2 ((speed + comp + usage) / 3) }

lemma evaluate_speed_cases (t : ℚ) :
    (t < 2 → evaluate_speed t = 100)
    ∧ (2 ≤ t → t < 5 → evaluate_speed t = 80)
    ∧ (5 ≤ t → t < 10 → evaluate_speed t = 60)
    ∧ (10 ≤ t → evaluate_speed t = 40) := by
  unfold evaluate_speed
  refine ⟨fun h => by rw [if_pos h], fun h1 h2 => ?_, fun h1 h2 => ?_, fun h1 => ?_⟩
  · rw [if_neg (by linarith), if_pos h2]
  · rw [if_neg (by linarith), if_neg (by linarith), if_pos h2]
  · rw [if_neg (by linarith), if_neg (by linarith), if_neg (by linarith)]

lemma evaluate_completeness_cases (r : String) :
    (r.length < 50 → evaluate_completeness r = 30)
    ∧ (50 ≤ r.length → r.length < 200 → evaluate_completeness r = 60)
    ∧ (200 ≤ r.length → r.length < 500 → evaluate_completeness r = 85)
    ∧ (500 ≤ r.length → evaluate_completeness r = 95) := by
  unfold evaluate_completeness
  refine ⟨fun h => by rw [if_pos h], fun h1 h2 => ?_, fun h1 h2 => ?_, fun h1 => ?_⟩
  · rw [if_neg (by omega), if_pos h2]
  · rw [if_neg (by omega), if_neg (by omega), if_pos h2]
  · rw [if_neg (by omega), if_neg (by omega), if_neg (by omega)]

lemma evaluate_tool_usage_cases (tools : List String) :
    (tools.length = 0 → evaluate_tool_usage tools = 40)
    ∧ (tools.length = 1 → evaluate_tool_usage tools = 70)
    ∧ (2 ≤ tools.length → tools.length ≤ 3 → evaluate_tool_usage tools = 100)
    ∧ (tools.length = 4 → evaluate_tool_usage tools = 75)
    ∧ (5 ≤ tools.length → evaluate_tool_usage tools = 50) := by
  unfold evaluate_tool_usage
  refine ⟨fun h => by rw [if_pos h], fun h => ?_, fun h1 h2 => ?_,
          fun h => ?_, fun h => ?_⟩
  · rw [if_neg (by omega), if_pos h]
  · rw [if_neg (by omega), if_neg (by omega), if_pos ⟨h1, h2⟩]
  · rw [if_neg (by omega), if_neg (by omega),
        if_neg (by rw [not_and_or]; omega), if_pos h]
  · rw [if_neg (by omega), if_neg (by omega),
        if_neg (by rw [not_and_or]; omega), if_neg (by omega)]

lemma evaluate_response_fields (query response : String) (t : ℚ)
    (tools : List String) :
    (evaluate_response query response t tools).response_speed
        = evaluate_speed t
    ∧ (evaluate_response query response t tools).response_completeness
        = evaluate_completeness response
    ∧ (evaluate_response query response t tools).tool_usage_efficiency
        = evaluate_tool_usage tools
    ∧ (evaluate_response query response t tools).overall_score
        = pyRoundTo 2 ((evaluate_speed t + evaluate_completeness response
            + evaluate_tool_usage tools) / 3) :=
  ⟨rfl, rfl, rfl, rfl⟩

/-- Claim C5: `evaluate_response` computes the speed sub-score by strict
thresholds (100/80/60/40 at 2, 5, 10 seconds), the completeness sub-score
from response character length (30/60/85/95 at 50, 200, 500), the
tool-usage sub-score from the call count (40/70/100/75/50), and
`overall_score` is the unweighted arithmetic mean of the three sub-scores
rounded to 2 decimals; boundary values 1.999/2.0/9.999/10.0 give speed
100/80/60/40, and response length 600, tool count 2, response time 1.0
give sub-scores 100, 95, 100 and `overall_score = 98.33`. -/
theorem c5_evaluator_scores :
    (∀ (query response : String) (t : ℚ) (tools : List String),
        ((t < 2 → (evaluate_response query response t tools).response_speed = 100)
        ∧ (2 ≤ t → t < 5 → (evaluate_response query response t tools).response_speed = 80)
        ∧ (5 ≤ t → t < 10 → (evaluate_response query response t tools).response_speed = 60)
        ∧ (10 ≤ t → (evaluate_response query response t tools).response_speed = 40))
      ∧ ((response.length < 50 → (evaluate_response query response t tools).response_completeness = 30)
        ∧ (50 ≤ response.length → response.length < 200 → (evaluate_response query response t tools).response_completeness = 60)
        ∧ (200 ≤ response.length → response.length < 500 → (evaluate_response query response t tools).response_completeness = 85)
        ∧ (500 ≤ response.length → (evaluate_response query response t tools).response_completeness = 95))
      ∧ ((tools.length = 0 → (evaluate_response query response t tools).tool_usage_efficiency = 40)
        ∧ (tools.length = 1 → (evaluate_response query response t tools).tool_usage_efficiency = 70)
        ∧ (2 ≤ tools.length → tools.length ≤ 3 → (evaluate_response query response t tools).tool_usage_efficiency = 100)
        ∧ (tools.length = 4 → (evaluate_response query response t tools).tool_usage_efficiency = 75)
        ∧ (5 ≤ tools.length → (evaluate_response query response t tools).tool_usage_efficiency = 50))
      ∧ (evaluate_response query response t tools).overall_score
          = pyRoundTo 2 (((evaluate_response query response t tools).response_speed
              + (evaluate_response query response t tools).response_completeness
              + (evaluate_response query response t tools).tool_usage_efficiency) / 3))
    ∧ (evaluate_response "q" "" (1999/1000) []).response_speed = 100
    ∧ (evaluate_response "q" "" 2 []).response_speed = 80
    ∧ (evaluate_response "q" "" (9999/1000) []).response_speed = 60
    ∧ (evaluate_response "q" "" 10 []).response_speed = 40
    ∧ (∀ (response : String) (tools : List String),
        response.length = 600 → tools.length = 2 →
          (evaluate_response "q" response 1 tools).response_speed = 100
        ∧ (evaluate_response "q" response 1 tools).response_completeness = 95
        ∧ (evaluate_response "q" response 1 tools).tool_usage_efficiency = 100
        ∧ (evaluate_response "q" response 1 tools).overall_score = 9833/100) := by
  have hfield := evaluate_response_fields
  refine ⟨?_, ?_, ?_, ?_, ?_, ?_⟩
  · intro query response t tools
    obtain ⟨hs, hc, hu, ho⟩ := hfield query response t tools
    obtain ⟨s1, s2, s3, s4⟩ := evaluate_speed_cases t
    obtain ⟨c1, c2, c3, c4⟩ := evaluate_completeness_cases response
    obtain ⟨u1, u2, u3, u4, u5⟩ := evaluate_tool_usage_cases tools
    refine ⟨⟨?_, ?_, ?_, ?_⟩, ⟨?_, ?_, ?_, ?_⟩, ⟨?_, ?_, ?_, ?_, ?_⟩, ?_⟩
    · intro h; rw [hs, s1 h]
    · intro h1 h2; rw [hs, s2 h1 h2]
    · intro h1 h2; rw [hs, s3 h1 h2]
    · intro h; rw [hs, s4 h]
    · intro h; rw [hc, c1 h]
    · intro h1 h2; rw [hc, c2 h1 h2]
    · intro h1 h2; rw [hc, c3 h1 h2]
    · intro h; rw [hc, c4 h]
    · intro h; rw [hu, u1 h]
    · intro h; rw [hu, u2 h]
    · intro h1 h2; rw [hu, u3 h1 h2]
    · intro h; rw [hu, u4 h]
    · intro h; rw [hu, u5 h]
    · rw [ho, hs, hc, hu]
  · exact (hfield "q" "" (1999/1000) []).1.trans
      ((evaluate_speed_cases _).1 (by norm_num))
  · exact (hfield "q" "" 2 []).1.trans
      ((evaluate_speed_cases _).2.1 (by norm_num) (by norm_num))
  · exact (hfield "q" "" (9999/1000) []).1.trans
      ((evaluate_speed_cases _).2.2.1 (by norm_num) (by norm_num))
  · exact (hfield "q" "" 10 []).1.trans ((evaluate_speed_cases _).2.2.2 (by norm_num))
  · intro response tools hlen htools
    have hs : evaluate_speed 1 = 100 := (evaluate_speed_cases 1).1 (by norm_num)
    have hc : evaluate_completeness response = 95 :=
      (evaluate_completeness_cases response).2.2.2 (by omega)
    have hu : evaluate_tool_usage tools = 100 :=
      (evaluate_tool_usage_cases tools).2.2.1 (by omega) (by omega)
    refine ⟨(hfield "q" response 1 tools).1.trans hs,
            (hfield "q" response 1 tools).2.1.trans hc,
            (hfield "q" response 1 tools).2.2.1.trans hu, ?_⟩
    rw [(hfield "q" response 1 tools).2.2.2, hs, hc, hu]
    have h295 : ((100 : ℚ) + 95 + 100) / 3 * 10 ^ 2 = 29500/3 := by norm_num
    have hf : ⌊(29500/3 : ℚ)⌋ = 9833 := by
      rw [Int.floor_eq_iff]; norm_num
    simp only [pyRoundTo, pyRoundInt, h295, hf]
    norm_num

/-- Claim C5 witness: the theorem applied at a concrete response of
length 600, tool count 2 and response time 1. -/
theorem c5_evaluator_scores_witness :
    (String.mk (List.replicate 600 'x')).length = 600
    ∧ (["web_search", "document_reader"] : List String).length = 2
    ∧ (evaluate_response "q" (String.mk (List.replicate 600 'x')) 1
        ["web_search", "document_reader"]).overall_score = 9833/100 := by
  have hlen : (String.mk (List.replicate 600 'x')).length = 600 := by
    show (List.replicate 600 'x').length = 600
    rw [List.length_replicate]
  exact ⟨hlen, rfl,
    (c5_evaluator_scores.2.2.2.2.2 (String.mk (List.replicate 600 'x'))
      ["web_search", "document_reader"] hlen rfl).2.2.2⟩

/-! ## llm_client.py -/

/-- The canned response of `MockLLMClient.generate` for prompts containing
"search" or "find". -/
def mockSearchTemplate : String :=
  "Based on my search, here are the key findings:\n1. The topic has several important aspects\n2. Recent developments show significant progress\n3. Expert consensus indicates this is a growing field\n\nWould you like me to dive deeper into any specific area?"

/-- The canned response for prompts containing "summarize" or "summary". -/
def mockSummaryTemplate : String :=
  "Summary of key points:\n- Main concept: The subject matter is complex but well-documented\n- Key findings: Multiple sources confirm the central thesis\n- Implications: This has broad applications across various domains\n- Conclusion: Further research is recommended"

/-- The canned response for prompts containing "analyze" or "analysis". -/
def mockAnalysisTemplate : String :=
  "Analysis:\n\nStrengths:\n- Well-supported by evidence\n- Clear methodology\n- Consistent results\n\nWeaknesses:\n- Limited scope in some areas\n- Could benefit from additional data\n- Some assumptions need validation\n\nOverall assessment: The research is solid with room for expansion."

/-- The fallback response: echoes the first 100 characters of the prompt
(`prompt[:100]`). -/
def mockGenericTemplate (prompt : String) : String :=
  "I understand you\x27re asking about: " ++ String.mk (prompt.data.take 100)
    ++ "...\n\nLet me provide a comprehensive response:\n- This is a well-researched topic with significant documentation\n- There are multiple perspectives to consider\n- The evidence suggests a nuanced understanding is necessary\n\nWould you like me to explore any specific aspect in more detail?"

/-- The response text of `MockLLMClient.generate` (llm_client.py):
case-insensitive substring matches on the prompt, in priority order. -/
def mockGenerateText (prompt : String) : String :=
  let prompt_lower := lowerStr prompt
  if pyIn "search" prompt_lower || pyIn "find" prompt_lower then
    mockSearchTemplate
  else if pyIn "summarize" prompt_lower || pyIn "summary" prompt_lower then
    mockSummaryTemplate
  else if pyIn "analyze" prompt_lower || pyIn "analysis" prompt_lower then
    mockAnalysisTemplate
  else
    mockGenericTemplate prompt

/-- `MockLLMClient` (llm_client.py): its only state is `call_count`. -/
structure MockLLMClient where
  call_count : Nat
deriving Repr, DecidableEq

/-- `MockLLMClient.generate` (llm_client.py): bump the counter, return the
canned response. -/
def MockLLMClient.generate (client : MockLLMClient) (prompt : String) :
    String × MockLLMClient :=
  (mockGenerateText prompt, ⟨client.call_count + 1⟩)

/-- The client constructed by `create_llm_client` (llm_client.py): either
the mock strategy or a hosted Vertex strategy with project, location and
model identifier. -/
inductive LLMClientKind where
  | mock
  | vertex (project_id location model_name : String)
deriving Repr, DecidableEq

/-- The process environment read by the factory. -/
structure Env where
  PROJECT_ID : Option String
  LOCATION : Option String
deriving Repr, DecidableEq

/-- `create_llm_client` (llm_client.py): `"mock"` gives the mock client;
`"vertex"`/`"auto"` read `PROJECT_ID` (falsy, i.e. unset or empty, falls
back to mock) and `LOCATION` (default `us-central1`); any other mode
raises `ValueError`. -/
def create_llm_client (mode : String) (env : Env) : Except String LLMClientKind :=
  if mode = "mock" then .ok .mock
  else if mode = "vertex" ∨ mode = "auto" then
    match env.PROJECT_ID with
    | none => .ok .mock
    | some project_id =>
      if project_id.isEmpty then .ok .mock
      else .ok (.vertex project_id (env.LOCATION.getD "us-central1") "gemini-2.5-pro")
  else .error ("Unknown mode: " ++ mode ++ ". Use \x27mock\x27, \x27vertex\x27, or \x27auto\x27")

/-- Claim C7: the mock generator is deterministic — two successive calls
with the identical prompt return byte-identical output and each call
increments the counter by exactly 1 — and the response is selected by
case-insensitive substring matches in priority order ("search"/"find",
then "summarize"/"summary", then "analyze"/"analysis", else the generic
template echoing the first 100 characters); instantiated on a prompt
containing "quantum". -/
theorem c7_mock_llm_determinism :
    (∀ (client : MockLLMClient) (prompt : String),
        ((client.generate prompt).2.generate prompt).1 = (client.generate prompt).1
      ∧ (client.generate prompt).2.call_count = client.call_count + 1
      ∧ ((client.generate prompt).2.generate prompt).2.call_count = client.call_count + 2
      ∧ ((pyIn "search" (lowerStr prompt) || pyIn "find" (lowerStr prompt)) = true →
            (client.generate prompt).1 = mockSearchTemplate)
      ∧ ((pyIn "search" (lowerStr prompt) || pyIn "find" (lowerStr prompt)) = false →
         (pyIn "summarize" (lowerStr prompt) || pyIn "summary" (lowerStr prompt)) = true →
            (client.generate prompt).1 = mockSummaryTemplate)
      ∧ ((pyIn "search" (lowerStr prompt) || pyIn "find" (lowerStr prompt)) = false →
         (pyIn "summarize" (lowerStr prompt) || pyIn "summary" (lowerStr prompt)) = false →
         (pyIn "analyze" (lowerStr prompt) || pyIn "analysis" (lowerStr prompt)) = true →
            (client.generate prompt).1 = mockAnalysisTemplate)
      ∧ ((pyIn "search" (lowerStr prompt) || pyIn "find" (lowerStr prompt)) = false →
         (pyIn "summarize" (lowerStr prompt) || pyIn "summary" (lowerStr prompt)) = false →
         (pyIn "analyze" (lowerStr prompt) || pyIn "analysis" (lowerStr prompt)) = false →
            (client.generate prompt).1 = mockGenericTemplate prompt))
    ∧ pyIn "quantum" (lowerStr "Tell me about quantum computing") = true
    ∧ ((⟨0⟩ : MockLLMClient).generate "Tell me about quantum computing").2.call_count = 1 := by
  refine ⟨?_, by decide, rfl⟩
  intro client prompt
  refine ⟨rfl, rfl, rfl, ?_, ?_, ?_, ?_⟩
  · intro h1
    show mockGenerateText prompt = mockSearchTemplate
    unfold mockGenerateText
    simp [h1]
  · intro h1 h2
    show mockGenerateText prompt = mockSummaryTemplate
    unfold mockGenerateText
    simp [h1, h2]
  · intro h1 h2 h3
    show mockGenerateText prompt = mockAnalysisTemplate
    unfold mockGenerateText
    simp [h1, h2, h3]
  · intro h1 h2 h3
    show mockGenerateText prompt = mockGenericTemplate prompt
    unfold mockGenerateText
    simp [h1, h2, h3]

/-- Claim C7 witness: the priority selection applied to a concrete prompt
containing "quantum", which matches no template keyword and therefore
yields the generic echo. -/
theorem c7_mock_llm_determinism_witness :
    ((⟨0⟩ : MockLLMClient).generate "Tell me about quantum computing").1
      = mockGenericTemplate "Tell me about quantum computing" :=
  ((c7_mock_llm_determinism.1 ⟨0⟩ "Tell me about quantum computing").2.2.2.2.2.2)
    (by decide) (by decide) (by decide)

/-- Claim C8: the factory returns the mock strategy for mode `"mock"`;
for `"vertex"`/`"auto"` with no project identifier configured it returns
the mock strategy instead of the hosted one; any other mode fails with a
configuration error. -/
theorem c8_llm_client_factory :
    (∀ env : Env, create_llm_client "mock" env = .ok .mock)
    ∧ (∀ env : Env, env.PROJECT_ID = none →
        create_llm_client "vertex" env = .ok .mock
      ∧ create_llm_client "auto" env = .ok .mock)
    ∧ (∀ (mode : String) (env : Env),
        mode ≠ "mock" → mode ≠ "vertex" → mode ≠ "auto" →
        create_llm_client mode env
          = .error ("Unknown mode: " ++ mode
              ++ ". Use \x27mock\x27, \x27vertex\x27, or \x27auto\x27")) := by
  refine ⟨fun env => rfl, fun env h => ?_, fun mode env h1 h2 h3 => ?_⟩
  · constructor <;> (unfold create_llm_client; rw [h]; rfl)
  · unfold create_llm_client
    rw [if_neg h1, if_neg (not_or.mpr ⟨h2, h3⟩)]

/-- Claim C8 witness: the factory applied to a `PROJECT_ID`-less
environment and to the unknown mode `"banana"`. -/
theorem c8_llm_client_factory_witness :
    create_llm_client "vertex" ⟨none, none⟩ = .ok .mock
    ∧ create_llm_client "banana" ⟨none, none⟩
        = .error ("Unknown mode: " ++ "banana"
            ++ ". Use \x27mock\x27, \x27vertex\x27, or \x27auto\x27") :=
  ⟨(c8_llm_client_factory.2.1 ⟨none, none⟩ rfl).1,
   c8_llm_client_factory.2.2 "banana" ⟨none, none⟩ (by decide) (by decide) (by decide)⟩

/-! ## tools.py -/

/-- One web-search result record (`title`, `url`, `snippet`). -/
structure SearchResult where
  title : String
  url : String
  snippet : String
deriving Repr, DecidableEq

/-- The record returned by `WebSearchTool.execute`. -/
structure SearchOutput where
  query : String
  results : List SearchResult
  count : Nat
deriving Repr, DecidableEq

/-- The canned NVIDIA financial results (tools.py). -/
def nvidiaResults : List SearchResult :=
  [{ title := "NVIDIA Stock (NVDA) Real-Time Quote - Nov 2025",
     url := "https://finance.yahoo.com/quote/NVDA",
     snippet := "NVIDIA Corporation (NVDA) current price: $495.20. Last 30 days: +12.5% (+$55.10). High: $505.30, Low: $440.10. Strong performance driven by AI chip demand and data center growth. Volume: 45.2M shares." },
   { title := "NVIDIA Stock Analysis - AI Boom Continues",
     url := "https://www.bloomberg.com/nvidia-analysis",
     snippet := "NVIDIA shares surge 12.5% in past month reaching $495.20. Analysts cite robust Q4 earnings, new H200 GPU launch, and partnerships with Microsoft, Google for cloud AI. Price target raised to $550." },
   { title := "Why NVIDIA Stock is Up This Month - Market Watch",
     url := "https://marketwatch.com/nvidia-november",
     snippet := "Key factors driving NVIDIA\x27s 12.5% gain: (1) Q4 revenue beat at $18.1B, (2) Data center revenue up 41%, (3) New AI partnerships announced, (4) Strong guidance for 2025. Stock outperforming S&P 500." }]

/-- The canned Tesla financial result (tools.py). -/
def teslaResults : List SearchResult :=
  [{ title := "Tesla Inc (TSLA) Stock Price - Real-Time",
     url := "https://finance.yahoo.com/quote/TSLA",
     snippet := "Tesla (TSLA) current: $242.80. Last 30 days: +8.3% (+$18.60). Range: $224.20-$251.50. Model 3 sales strong in Europe. Cybertruck production ramping up. Volume: 98.5M." }]

/-- The canned machine-learning results (tools.py). -/
def mlResults : List SearchResult :=
  [{ title := "Machine Learning: Complete Guide 2025",
     url := "https://towardsdatascience.com/ml-guide",
     snippet := "Machine Learning is a subset of AI enabling systems to learn from data. Key types: Supervised (classification, regression), Unsupervised (clustering), Reinforcement learning. Popular frameworks: TensorFlow, PyTorch, scikit-learn." },
   { title := "Latest Advances in ML - November 2025",
     url := "https://arxiv.org/ml-advances",
     snippet := "Recent breakthroughs: GPT-5 with 10T parameters, diffusion models for video generation, quantum ML algorithms. Growing applications in healthcare, finance, autonomous vehicles." }]

/-- The canned quantum-computing results (tools.py). -/
def quantumResults : List SearchResult :=
  [{ title := "Quantum Computing Explained - 2025 Update",
     url := "https://quantumcomputing.com/guide",
     snippet := "Quantum computers use qubits for parallel processing via superposition and entanglement. IBM\x27s 1121-qubit processor, Google\x27s error correction breakthrough. Applications: cryptography, drug discovery, optimization." },
   { title := "Latest Quantum Computing Developments",
     url := "https://nature.com/quantum-news",
     snippet := "IBM achieves quantum advantage in chemistry simulations. Microsoft Azure Quantum available commercially. China\x27s photonic quantum computer processes 10^14 samples/sec. Quantum internet prototype tested." }]

/-- The generic fallback results built from the query text (tools.py). -/
def genericResults (query : String) : List SearchResult :=
  [{ title := "Comprehensive Guide: " ++ query,
     url := "https://example.com/guide",
     snippet := "Detailed information about " ++ query ++ ": Current state, recent developments, expert analysis, and practical applications. Updated November 2025." },
   { title := query ++ " - Latest Research 2025",
     url := "https://example.com/research",
     snippet := "Recent advances in " ++ query ++ ": Key findings from leading institutions, emerging trends, and future outlook. Published by industry experts." },
   { title := query ++ ": Practical Applications",
     url := "https://example.com/applications",
     snippet := "Real-world applications of " ++ query ++ ": Case studies, success stories, implementation guides, and best practices from top companies." }]

/-- `WebSearchTool.execute` (tools.py): deterministic pattern matching on
the lower-cased query, each branch capping its list at `max_results` and
reporting `count = min(max_results, branch size)`. -/
def webSearchExecute (query : String) (max_results : Nat) : SearchOutput :=
  let query_lower := lowerStr query
  if anyIn ["nvidia", "nvda"] query_lower
      && anyIn ["azioni", "stock", "prezzo", "price", "andamento"] query_lower then
    { query := query, results := nvidiaResults.take max_results,
      count := min max_results 3 }
  else if anyIn ["tesla", "tsla"] query_lower
      && anyIn ["stock", "azioni", "prezzo"] query_lower then
    { query := query, results := teslaResults.take max_results,
      count := min max_results 1 }
  else if pyIn "machine learning" query_lower || pyIn "ml" query_lower then
    { query := query, results := mlResults.take max_results,
      count := min max_results 2 }
  else if pyIn "quantum" query_lower then
    { query := query, results := quantumResults.take max_results,
      count := min max_results 2 }
  else
    { query := query, results := (genericResults query).take max_results,
      count := min max_results 3 }

/-- Claim C10: in every branch of `WebSearchTool.execute`, the `count`
field equals the length of the returned `results` list, and that length
never exceeds `max_results`. -/
theorem c10_web_search_count (query : String) (max_results : Nat) :
    (webSearchExecute query max_results).count
        = (webSearchExecute query max_results).results.length
    ∧ (webSearchExecute query max_results).results.length ≤ max_results := by
  simp only [webSearchExecute]
  split
  · simp [List.length_take, nvidiaResults, Nat.min_comm]
  · split
    · simp [List.length_take, teslaResults, Nat.min_comm]
    · split
      · simp [List.length_take, mlResults, Nat.min_comm]
      · split
        · simp [List.length_take, quantumResults, Nat.min_comm]
        · simp [List.length_take, genericResults, Nat.min_comm]

/-- The structured `content` record returned by `DocumentReaderTool`. -/
structure DocContent where
  title : String
  authors : List String
  date : String
  abstract : String
  key_findings : List String
  summary : String
deriving Repr, DecidableEq

/-- The record returned by `DocumentReaderTool.execute`. -/
structure DocOutput where
  url : String
  extract_type : String
  content : DocContent
deriving Repr, DecidableEq

/-- The canned NVIDIA document content (tools.py). -/
def nvidiaDocContent : DocContent :=
  { title := "NVIDIA Q4 2025 Financial Results and Market Analysis",
    authors := ["Goldman Sachs Research", "Morgan Stanley Analysis Team"],
    date := "November 10, 2025",
    abstract := "NVIDIA reports exceptional Q4 performance with revenue reaching $18.1 billion, driven by unprecedented demand for AI accelerators and data center solutions.",
    key_findings :=
      ["Stock price: $495.20 (+12.5% monthly gain, +55.10 points)",
       "Q4 Revenue: $18.1B, beating estimates by 8.5%",
       "Data Center segment up 41% YoY, driven by H200 GPU adoption",
       "New partnerships with Microsoft Azure, Google Cloud, Amazon AWS",
       "2025 guidance raised: expected revenue growth 30-35%",
       "Price target consensus: $550 (upside 11% from current)"],
    summary := "NVIDIA demonstrates exceptional momentum in AI chip market with strong financials, strategic partnerships, and robust guidance. Stock outperforming tech sector with sustained institutional buying." }

/-- The canned Tesla document content (tools.py). -/
def teslaDocContent : DocContent :=
  { title := "Tesla Stock Performance Analysis - November 2025",
    authors := ["UBS Investment Research"],
    date := "November 12, 2025",
    abstract := "Tesla stock analysis showing 8.3% monthly gain driven by production ramp and European sales.",
    key_findings :=
      ["Current price: $242.80 (+8.3% monthly, +18.60 points)",
       "Cybertruck production ramping: 5,000 units/week achieved",
       "Model 3/Y sales up 22% in Europe amid EV incentives",
       "Energy storage deployments at record 3.5 GWh in Q3"],
    summary := "Tesla showing solid operational execution with production milestones and geographic expansion." }

/-- The canned machine-learning document content (tools.py). -/
def mlDocContent : DocContent :=
  { title := "Machine Learning: State of the Art 2025",
    authors := ["Dr. Andrew Ng", "Prof. Yann LeCun", "Dr. Fei-Fei Li"],
    date := "November 2025",
    abstract := "Comprehensive review of machine learning advances including transformer models, multimodal learning, and real-world applications.",
    key_findings :=
      ["Transformer architecture dominates: GPT, BERT, Vision Transformers",
       "Multimodal models (text+image+audio) showing breakthrough results",
       "Few-shot learning enabling rapid adaptation with minimal data",
       "ML deployment in production: healthcare diagnostics, autonomous vehicles, financial trading",
       "Emerging: neuromorphic computing, quantum ML algorithms"],
    summary := "ML field experiencing rapid innovation with practical applications transforming industries. Focus shifting from model size to efficiency and real-world deployment." }

/-- The canned quantum-computing document content (tools.py). -/
def quantumDocContent : DocContent :=
  { title := "Quantum Computing Breakthroughs 2025",
    authors := ["IBM Quantum Research", "Google Quantum AI"],
    date := "November 2025",
    abstract := "Recent quantum computing advances including error correction, qubit scaling, and commercial applications.",
    key_findings :=
      ["IBM achieves 1121-qubit processor with improved coherence times",
       "Google demonstrates quantum error correction at scale",
       "Quantum advantage proven for chemistry simulations and cryptography",
       "Commercial quantum cloud services: IBM Quantum, Azure Quantum, Amazon Braket",
       "Applications: drug discovery, materials science, financial optimization"],
    summary := "Quantum computing transitioning from research to practical applications with improved hardware and accessible cloud platforms." }

/-- The generic fallback document content (tools.py). -/
def genericDocContent : DocContent :=
  { title := "Research Document Analysis",
    authors := ["Research Team"],
    date := "November 2025",
    abstract := "Comprehensive analysis of current topic with latest research and industry insights.",
    key_findings :=
      ["Current state: Rapidly evolving field with significant research activity",
       "Key trends: Innovation accelerating, practical applications emerging",
       "Industry impact: Major companies investing heavily in development",
       "Future outlook: Continued growth expected with broader adoption"],
    summary := "Field showing strong momentum with research breakthroughs translating to practical applications." }

/-- `DocumentReaderTool.execute` (tools.py): pattern matching on the
lower-cased URL, mirroring the web-search topics. -/
def docReaderExecute (document_url : String) (extract_type : String) : DocOutput :=
  let url_lower := lowerStr document_url
  if pyIn "nvidia" url_lower || pyIn "nvda" url_lower then
    { url := document_url, extract_type := extract_type, content := nvidiaDocContent }
  else if pyIn "tesla" url_lower || pyIn "tsla" url_lower then
    { url := document_url, extract_type := extract_type, content := teslaDocContent }
  else if pyIn "machine learning" url_lower || pyIn "ml" url_lower then
    { url := document_url, extract_type := extract_type, content := mlDocContent }
  else if pyIn "quantum" url_lower then
    { url := document_url, extract_type := extract_type, content := quantumDocContent }
  else
    { url := document_url, extract_type := extract_type, content := genericDocContent }

/-- A finding accumulated by the orchestrator pipeline: `source` and
`content` as stored in the `findings` list of `execute_research`. -/
structure Finding where
  source : String
  content : String
deriving Repr, DecidableEq

/-- The record returned by `DataAnalysisTool.execute` (tools.py). -/
structure AnalysisOutput where
  analysis_type : String
  data_points : Nat
  insights : List String
  summary : String
  confidence : ℚ
deriving Repr, DecidableEq

/-- `DataAnalysisTool.execute` (tools.py): a fixed template reporting the
cardinality of its input; it never branches on content. -/
def dataAnalysisExecute (data : List Finding) (analysis_type : String) :
    AnalysisOutput :=
  { analysis_type := analysis_type,
    data_points := data.length,
    insights :=
      ["Common theme identified across sources",
       "Contradictions found requiring further investigation",
       "Strong consensus on key points",
       "Gaps identified in current research"],
    summary := "Analysis of " ++ toString data.length
      ++ " data points reveals consistent patterns and some areas needing further research.",
    confidence := 85/100 }

/-! ## orchestrator.py -/

/-- One `{tool, result}` step record of `execute_research`. -/
inductive StepRecord where
  | search (result : SearchOutput)
  | document (result : DocOutput)
  | analysis (result : AnalysisOutput)
deriving Repr, DecidableEq

/-- Which of the three tool names are registered in the `ToolRegistry`
consulted by the orchestrator (`self.tools.get(name)`). -/
structure Registry where
  web_search : Bool
  document_reader : Bool
  data_analysis : Bool
deriving Repr, DecidableEq

/-- The registry built by `create_default_tools` (tools.py): all three
tools registered. -/
def defaultRegistry : Registry :=
  { web_search := true, document_reader := true, data_analysis := true }

/-- The mutable `results` dictionary threaded through the pipeline before
the final fields are attached. -/
structure PipelineState where
  query : String
  steps : List StepRecord
  tools_used : List String
  findings : List Finding
deriving Repr, DecidableEq

/-- Stage 1 of `execute_research` (orchestrator.py): if `web_search` is
registered, run it on the query (default `max_results = 5`), record the
step and tool name, and emit one Finding per result
(`source = title`, `content = snippet`). -/
def stage1 (reg : Registry) (query : String) : PipelineState :=
  let st : PipelineState := { query := query, steps := [], tools_used := [], findings := [] }
  if reg.web_search then
    let search_results := webSearchExecute query 5
    { st with
      steps := st.steps ++ [.search search_results],
      tools_used := st.tools_used ++ ["web_search"],
      findings := st.findings
        ++ search_results.results.map (fun r => ⟨r.title, r.snippet⟩) }
  else st

/-- The lookup `results["steps"][0]["result"]["results"][0]["url"]` of
stage 2: `none` models the `IndexError`/`KeyError` raised when there is no
first step, the first step is not a web-search step, or the search
returned zero results. -/
def firstStepFirstResultUrl (steps : List StepRecord) : Option String :=
  match steps with
  | .search r :: _ =>
    match r.results with
    | first :: _ => some first.url
    | [] => none
  | _ => none

/-- The state update performed by stage 2 once the URL is in hand: read
the document (default `extract_type = "summary"`), record step and tool
name, and emit one Finding per `key_findings` entry with
`source = "document"`. -/
def applyDocRead (st : PipelineState) (doc_url : String) : PipelineState :=
  let doc_result := docReaderExecute doc_url "summary"
  { st with
    steps := st.steps ++ [.document doc_result],
    tools_used := st.tools_used ++ ["document_reader"],
    findings := st.findings
      ++ doc_result.content.key_findings.map (fun f => ⟨"document", f⟩) }

/-- Stage 2 of `execute_research` (orchestrator.py): attempted whenever
`findings` is non-empty and a `document_reader` is registered; the
unguarded first-result lookup raises (modelled as `Except.error`) when it
fails. -/
def stage2 (reg : Registry) (st : PipelineState) : Except String PipelineState :=
  if !st.findings.isEmpty then
    if reg.document_reader then
      match firstStepFirstResultUrl st.steps with
      | none => .error "IndexError"
      | some doc_url => .ok (applyDocRead st doc_url)
    else .ok st
  else .ok st

/-- Stage 3 of `execute_research` (orchestrator.py): if `data_analysis`
is registered and findings exist, analyze the accumulated findings and
attach the raw result as `synthesis`. -/
def stage3 (reg : Registry) (st : PipelineState) :
    PipelineState × Option AnalysisOutput :=
  if reg.data_analysis && !st.findings.isEmpty then
    let analysis := dataAnalysisExecute st.findings "synthesis"
    ({ st with
       steps := st.steps ++ [.analysis analysis],
       tools_used := st.tools_used ++ ["data_analysis"] },
     some analysis)
  else (st, none)

/-- The final result of `execute_research` (wall-clock `execution_time`
is not modelled). -/
structure ExecutionResult where
  query : String
  steps : List StepRecord
  tools_used : List String
  findings : List Finding
  synthesis : Option AnalysisOutput
  success : Bool
deriving Repr, DecidableEq

/-- `TaskOrchestrator.execute_research` (orchestrator.py): the fixed
three-stage pipeline; `success = len(tools_used) > 0`. -/
def executeResearch (reg : Registry) (query : String) :
    Except String ExecutionResult :=
  (stage2 reg (stage1 reg query)).map fun st2 =>
    let p := stage3 reg st2
    { query := p.1.query,
      steps := p.1.steps,
      tools_used := p.1.tools_used,
      findings := p.1.findings,
      synthesis := p.2,
      success := p.1.tools_used.length > 0 }

/-- `TaskOrchestrator._format_findings` (orchestrator.py): lines
`"{i}. [{source}] {content}"` numbered from 1 (`source`/`content` are
always present on pipeline findings, so the `.get` defaults never fire). -/
def formatFindings (findings : List Finding) : String :=
  pyJoin "\n"
    ((findings.enum).map fun p =>
      toString (p.1 + 1) ++ ". [" ++ p.2.source ++ "] " ++ p.2.content)

/-- The synthesis prompt built by `TaskOrchestrator.synthesize_findings`
(orchestrator.py). -/
def synthPrompt (findings : List Finding) : String :=
  "You are a research synthesizer. Create a comprehensive summary\nof the following research findings:\n\nFindings:\n"
    ++ formatFindings findings
    ++ "\n\nProvide a clear, structured summary that integrates these findings."

/-- `TaskOrchestrator.synthesize_findings` in mock mode: the mock LLM
applied to the synthesis prompt. -/
def synthesize_findings (findings : List Finding) : String :=
  mockGenerateText (synthPrompt findings)

/-- The synthesis text computed by `ResearchAssistantAgent.research`
(agent.py, step 3): `synthesize_findings` over the execution findings when
any exist, else the literal fallback. -/
def agentSynthesis (execution : ExecutionResult) : String :=
  if !execution.findings.isEmpty then synthesize_findings execution.findings
  else "No findings to synthesize."

/-! ## Pipeline lemmas -/

lemma stage1_eq (reg : Registry) (q : String) :
    stage1 reg q
      = if reg.web_search then
          { query := q, steps := [.search (webSearchExecute q 5)],
            tools_used := ["web_search"],
            findings := (webSearchExecute q 5).results.map
              (fun r => ⟨r.title, r.snippet⟩) }
        else { query := q, steps := [], tools_used := [], findings := [] } := by
  simp only [stage1]
  split <;> rfl

lemma stage2_skip_empty (reg : Registry) (st : PipelineState)
    (hf : st.findings = []) : stage2 reg st = .ok st := by
  unfold stage2
  simp [hf]

lemma stage2_skip_nodoc (reg : Registry) (st : PipelineState)
    (hd : reg.document_reader = false) : stage2 reg st = .ok st := by
  unfold stage2
  rw [hd]
  split <;> rfl

lemma stage2_attempt (reg : Registry) (st : PipelineState)
    (hf : st.findings ≠ []) (hd : reg.document_reader = true) :
    (firstStepFirstResultUrl st.steps = none →
        stage2 reg st = .error "IndexError")
    ∧ ∀ u, firstStepFirstResultUrl st.steps = some u →
        stage2 reg st = .ok (applyDocRead st u) := by
  have hne : st.findings.isEmpty = false := by
    cases h : st.findings
    · exact absurd h hf
    · rfl
  unfold stage2
  rw [hne, hd]
  refine ⟨fun h => ?_, fun u h => ?_⟩ <;> simp [h]

lemma executeResearch_ok (reg : Registry) (query : String) :
    ∃ r, executeResearch reg query = .ok r := by
  suffices h : ∃ st2, stage2 reg (stage1 reg query) = .ok st2 by
    obtain ⟨st2, hst2⟩ := h
    exact ⟨_, by unfold executeResearch; rw [hst2]; rfl⟩
  have h1 := stage1_eq reg query
  by_cases hw : reg.web_search = true
  · rw [if_pos hw] at h1
    rcases hres : (webSearchExecute query 5).results with _ | ⟨first, rest⟩
    · exact ⟨_, stage2_skip_empty reg _ (by rw [h1]; simp [hres])⟩
    · by_cases hd : reg.document_reader = true
      · refine ⟨_, (stage2_attempt reg (stage1 reg query) ?_ hd).2 first.url ?_⟩
        · rw [h1]; simp [hres]
        · rw [h1]
          show (match (webSearchExecute query 5).results with
                | f :: _ => some f.url
                | [] => none) = some first.url
          rw [hres]
      · exact ⟨_, stage2_skip_nodoc reg _ (Bool.not_eq_true _ ▸ hd)⟩
  · rw [if_neg hw] at h1
    exact ⟨_, stage2_skip_empty reg _ (by rw [h1])⟩

/-- Claim C3: whenever `findings` is non-empty and a `document_reader` is
registered, stage 2 is unconditionally attempted and reads exactly the URL
of the first result of the first (web-search) step; the lookup is not
defensively guarded and fails (`IndexError`) when no web-search step
occurred or the search returned zero results; yet inside
`execute_research` that failing case is unreachable — the pipeline always
returns a result — because findings only become non-empty through
stage-1 web-search results. -/
theorem c3_stage2_unguarded :
    (∀ (reg : Registry) (st : PipelineState),
        st.findings ≠ [] → reg.document_reader = true →
        (firstStepFirstResultUrl st.steps = none →
            stage2 reg st = .error "IndexError")
        ∧ ∀ u, firstStepFirstResultUrl st.steps = some u →
            stage2 reg st = .ok (applyDocRead st u))
    ∧ (∀ (reg : Registry) (st : PipelineState),
        st.findings = [] ∨ reg.document_reader = false → stage2 reg st = .ok st)
    ∧ (∀ (reg : Registry) (query : String),
        ∃ r, executeResearch reg query = .ok r)
    ∧ stage2 defaultRegistry
        { query := "q", steps := [], tools_used := [], findings := [⟨"s", "c"⟩] }
        = .error "IndexError" := by
  refine ⟨stage2_attempt, ?_, executeResearch_ok, rfl⟩
  intro reg st h
  rcases h with h | h
  · exact stage2_skip_empty reg st h
  · exact stage2_skip_nodoc reg st h

/-- Claim C3 witness: the unguarded lookup applied to a concrete state
with findings but no recorded web-search step. -/
theorem c3_stage2_unguarded_witness :
    stage2 defaultRegistry
        { query := "w", steps := [], tools_used := [], findings := [⟨"a", "b"⟩] }
      = .error "IndexError" :=
  (c3_stage2_unguarded.1 defaultRegistry
    { query := "w", steps := [], tools_used := [], findings := [⟨"a", "b"⟩] }
    (by decide) rfl).1 rfl

/-- Claim C4: `execute_research` returns `success = true` iff `tools_used`
is non-empty; with only `data_analysis` registered it returns
`tools_used = []` and `success = False` for every query, because the
analysis stage requires findings and findings require web search. -/
theorem c4_success_iff_tools :
    (∀ (reg : Registry) (query : String) (r : ExecutionResult),
        executeResearch reg query = .ok r →
        (r.success = true ↔ r.tools_used ≠ []))
    ∧ (∀ query : String,
        executeResearch
            { web_search := false, document_reader := false, data_analysis := true }
            query
          = .ok { query := query, steps := [], tools_used := [], findings := [],
                  synthesis := none, success := false }) := by
  refine ⟨?_, fun query => rfl⟩
  intro reg query r h
  unfold executeResearch at h
  rcases hs : stage2 reg (stage1 reg query) with e | st2
  · rw [hs] at h
    simp [Except.map] at h
  · rw [hs] at h
    simp only [Except.map, Except.ok.injEq] at h
    rw [← h]
    simp [decide_eq_true_iff, List.length_pos]

/-- Claim C4 witness: both halves applied to the data-analysis-only
registry at a concrete query. -/
theorem c4_success_iff_tools_witness :
    (executeResearch
        { web_search := false, document_reader := false, data_analysis := true }
        "x"
      = .ok { query := "x", steps := [], tools_used := [], findings := [],
              synthesis := none, success := false })
    ∧ (false = true ↔ ([] : List String) ≠ []) := by
  have h2 := c4_success_iff_tools.2 "x"
  exact ⟨h2, c4_success_iff_tools.1 _ "x" _ h2⟩

/-- Claim C2: in mock mode, on the literal query `"Explain the principles
of machine learning"`, `execute_research` over the default registry uses
`web_search`, `document_reader` and `data_analysis` in that order, the
mock web search's machine-learning branch returns at least one result, and
the agent's synthesis string is non-empty. -/
theorem c2_mock_ml_demo :
    ∃ r, executeResearch defaultRegistry
          "Explain the principles of machine learning" = .ok r
    ∧ r.tools_used = ["web_search", "document_reader", "data_analysis"]
    ∧ agentSynthesis r ≠ ""
    ∧ 1 ≤ (webSearchExecute
          "Explain the principles of machine learning" 5).results.length := by
  exact ⟨_, rfl, by decide, by decide, by decide⟩
